import Mathlib

/-!
# Verification of the zodiac channel layer

Shallow embedding of the zodiac message-channel library (TypeScript):

* `BaseChannel` (handler registry, `sendMessage` validation, `handleMessage`
  parse-and-dispatch, `isOpen`) — file `base-channel`;
* `BrowserChannel` (WebSocket transport with automatic reconnection and
  exponential backoff) — file `browser-channel`;
* `PeerChannel.connect` — file `peer-channel`.

Conventions of the embedding:

* Platform primitives (the `WebSocket` object, `JSON.stringify`/`JSON.parse`,
  `Date.now`, `setTimeout`, the Zod validator) are external to the repository;
  they are modelled as follows: time instants are explicit `Int`/`Nat`
  arguments; a Zod schema is a function `α → Except String α` (parse returns
  the validated data or raises); `setTimeout` scheduling is recorded in an
  append-only `scheduled` log; the JSON codec is the exact round-trip between
  an envelope structure and its parsed form (`rawOfMessage`), and a failed
  `JSON.parse` is the `none` input of `handleMessage`.
* JavaScript function references (message handlers) are identified by a `Nat`
  tag; the behaviour of the function with tag `t` on payload `d` (whether the
  call throws / rejects) is a separate environment argument
  `beh : Nat → α → Bool` so that registry operations compare handlers by
  identity, exactly as a JS `Set` of function references does.
-/

namespace Zodiac

/-! ## BrowserChannel: connection state and reconnection (browser-channel) -/

/-- State of a `BrowserChannel` instance: the `isConnected` flag inherited from
`BaseChannel`, the three reconnect-policy fields, and an append-only log of the
`setTimeout` reconnect tasks the `onclose` handler has scheduled (each task
carries its delay in milliseconds and the url it will pass to `connect`). -/
structure BrowserState where
  isConnected : Bool
  reconnectAttempts : Nat
  maxReconnectAttempts : Nat
  reconnectDelay : Nat
  scheduled : List (Nat × String)
deriving Repr, DecidableEq

/-- Field initializers of `BrowserChannel`: not connected, `reconnectAttempts = 0`,
`maxReconnectAttempts = 5`, `reconnectDelay = 1000`, nothing scheduled. -/
def BrowserState.init : BrowserState :=
  { isConnected := false
    reconnectAttempts := 0
    maxReconnectAttempts := 5
    reconnectDelay := 1000
    scheduled := [] }

/-- The `ws.onopen` handler installed by `connect`:
`this.isConnected = true; this.reconnectAttempts = 0`. -/
def onopen (s : BrowserState) : BrowserState :=
  { s with isConnected := true, reconnectAttempts := 0 }

/-- The `ws.onclose` handler installed by `connect (url)`:
`this.isConnected = false`, then, if `reconnectAttempts < maxReconnectAttempts`,
`setTimeout(.., reconnectDelay * 2 ^ reconnectAttempts)` is called; the
scheduled task (which will increment the counter and call `connect(url)`) is
recorded in the `scheduled` log with its delay and url. The handler consults no
other state: in particular nothing distinguishes a close caused by an explicit
`disconnect()` from an unexpected close. -/
def onclose (url : String) (s : BrowserState) : BrowserState :=
  let s1 := { s with isConnected := false }
  if s1.reconnectAttempts < s1.maxReconnectAttempts then
    { s1 with
      scheduled :=
        s1.scheduled ++ [(s1.reconnectDelay * 2 ^ s1.reconnectAttempts, url)] }
  else s1

/-- Body of the scheduled reconnect task: `this.reconnectAttempts++` (the
subsequent `this.connect(url)` call re-enters `connect`, whose outcome arrives
as later `onopen`/`onerror`/`onclose` events). -/
def reconnectTick (s : BrowserState) : BrowserState :=
  { s with reconnectAttempts := s.reconnectAttempts + 1 }

/-- `setReconnectOptions(maxAttempts, baseDelay)`. -/
def setReconnectOptions (maxAttempts baseDelay : Nat) (s : BrowserState) : BrowserState :=
  { s with maxReconnectAttempts := maxAttempts, reconnectDelay := baseDelay }

/-- `disconnect()` calls `this.ws.close()`; the transport then fires the close
event, which runs the same `onclose` handler that `connect` installed. The
method sets no flag before closing, so the state transition caused by an
explicit disconnect is exactly `onclose`. -/
def disconnect (url : String) (s : BrowserState) : BrowserState :=
  onclose url s

/-- `BaseChannel.isOpen(): return this.isConnected`. -/
def isOpen (s : BrowserState) : Bool :=
  s.isConnected

/-- Outcome of the promise returned by an in-flight `connect` call. -/
inductive PromiseState where
  | pending
  | resolvedOk
  | rejected
deriving Repr, DecidableEq

/-- The `ws.onerror` handler installed by `connect` rejects the pending
promise (`reject(new Error('WebSocket error'))`); settling is one-shot. -/
def settleReject : PromiseState → PromiseState
  | .pending => .rejected
  | p => p

/-- Event sequence of a failed initial `connect(url)` attempt: the transport
fires `error` (the `onerror` handler rejects the caller's promise) and then
`close` (the `onclose` handler runs). Returns the settled promise and the
channel state after both handlers. -/
def failedInitialConnect (url : String) (s : BrowserState) :
    PromiseState × BrowserState :=
  (settleReject .pending, onclose url s)

/-- Delays of the successive reconnect tasks produced when every background
reconnect attempt fails: each cycle runs `onclose`, reads the delay of the task
it scheduled (if any), then runs the task (`reconnectTick` followed by a
`connect` whose failure produces the next close event). `fuel` bounds the
number of cycles inspected. -/
def failureDelays : Nat → BrowserState → String → List Nat
  | 0, _, _ => []
  | fuel + 1, s, url =>
    let s1 := onclose url s
    match s1.scheduled.drop s.scheduled.length with
    | [] => []
    | (d, _) :: _ => d :: failureDelays fuel (reconnectTick s1) url

/-! ## BaseChannel: messages, registry, dispatch (base-channel, types) -/

/-- The wire envelope (`Message<T>` in `types`): id, payload, timestamp.
`Date.now()` instants are modelled as `Int`. On the send path the timestamp is
always filled, so the structure's field is total; optional timestamps on the
receive path live in `Raw`. -/
structure Message (α : Type) where
  id : String
  data : α
  timestamp : Int
deriving Repr, DecidableEq

/-- A message definition (`defineMessage(id, schema)`): the id together with
the data schema. A Zod schema is modelled as its `parse` function, returning
the validated data or a validation error. -/
structure MessageDefinition (α : Type) where
  id : String
  schema : α → Except String α

/-- The parsed form of an inbound JSON frame: the three envelope fields, with
`timestamp` possibly absent (`undefined`). -/
structure Raw (α : Type) where
  id : String
  data : α
  timestamp : Option Int
deriving Repr, DecidableEq

/-- `JSON.parse (JSON.stringify m)` for an envelope written by
`validateAndSerialize`: every field, the timestamp included, survives the
codec round-trip. -/
def rawOfMessage (m : Message α) : Raw α :=
  { id := m.id, data := m.data, timestamp := some m.timestamp }

/-- JavaScript `x || y` applied to the optional numeric `parsed.timestamp`:
`undefined` and `0` are falsy, every other number is truthy. -/
def jsOr : Option Int → Int → Int
  | none, now => now
  | some t, now => if t = 0 then now else t

/-- The inbound `Message` built by `handleMessage` from a parsed frame:
`{ id: parsed.id, data: parsed.data, timestamp: parsed.timestamp || Date.now() }`. -/
def receivedMessage (r : Raw α) (now : Int) : Message α :=
  { id := r.id, data := r.data, timestamp := jsOr r.timestamp now }

/-- The argument of `on`/`off`: either a raw string id or a message
definition. -/
inductive HandlerKey (α : Type) where
  | byId (id : String)
  | byDef (d : MessageDefinition α)

/-- `typeof idOrDefinition === 'string' ? idOrDefinition : idOrDefinition.id`. -/
def keyId : HandlerKey α → String
  | .byId i => i
  | .byDef d => d.id

/-- `Map.get`: lookup in an association list kept in insertion order. -/
def mapGet (r : List (String × List Nat)) (id : String) : Option (List Nat) :=
  match r with
  | [] => none
  | (k, v) :: rest => if k = id then some v else mapGet rest id

/-- `Map.set`: replace the value at an existing key in place, or append a new
entry at the end (JS `Map` preserves insertion order). -/
def mapSet (r : List (String × List Nat)) (id : String) (hs : List Nat) :
    List (String × List Nat) :=
  match r with
  | [] => [(id, hs)]
  | (k, v) :: rest => if k = id then (id, hs) :: rest else (k, v) :: mapSet rest id hs

/-- `Set.add` on a set of handler references (kept as a duplicate-free list in
insertion order): adding an element already present is a no-op, a new element
goes to the end. -/
def setAdd (hs : List Nat) (h : Nat) : List Nat :=
  if h ∈ hs then hs else hs ++ [h]

/-- `Set.delete`: remove the element if present (a JS set holds it at most
once, so erasing the first occurrence is removal). -/
def setDelete (hs : List Nat) (h : Nat) : List Nat :=
  hs.erase h

/-- State of the abstract `BaseChannel`: the handler registry
(`messageHandlers : Map<MessageId, Set<MessageHandler>>`, handlers identified
by reference tag) and the `isConnected` flag. -/
structure ChannelState where
  messageHandlers : List (String × List Nat)
  isConnected : Bool
deriving Repr, DecidableEq

/-- The set of handlers registered for an id (empty when the key is absent). -/
def bucket (st : ChannelState) (id : String) : List Nat :=
  (mapGet st.messageHandlers id).getD []

/-- `BaseChannel.on(idOrDefinition, handler)`: normalize the key to an id; if
the map has no entry for the id, insert an empty set; then add the handler to
the set for the id. -/
def onHandler (st : ChannelState) (k : HandlerKey α) (h : Nat) : ChannelState :=
  let id := keyId k
  let r := st.messageHandlers
  let r1 := match mapGet r id with
    | none => mapSet r id []
    | some _ => r
  { st with messageHandlers := mapSet r1 id (setAdd ((mapGet r1 id).getD []) h) }

/-- `BaseChannel.off(idOrDefinition, handler)`: normalize the key to an id; if
the map has a set for the id, delete the handler from it; otherwise do
nothing. -/
def offHandler (st : ChannelState) (k : HandlerKey α) (h : Nat) : ChannelState :=
  let id := keyId k
  match mapGet st.messageHandlers id with
  | none => st
  | some hs => { st with messageHandlers := mapSet st.messageHandlers id (setDelete hs h) }

/-- Record of one `handleMessage` dispatch: the handler invocations that
started, in order (handler tag, `data` argument, `message` argument), and how
many errors were caught and logged (`console.error`). -/
structure DispatchLog (α : Type) where
  invoked : List (Nat × α × Message α)
  errorsLogged : Nat
deriving Repr, DecidableEq

/-- The dispatch loop of `handleMessage`: `for (const handler of handlers)`
invokes each handler in insertion order with `(message.data, message)` inside
its own `try`; a throw or rejected result (`beh tag data = true`) is caught
and logged, and the loop continues with the next handler. -/
def runHandlers (beh : Nat → α → Bool) (msg : Message α) :
    List Nat → DispatchLog α
  | [] => { invoked := [], errorsLogged := 0 }
  | h :: rest =>
    let tail := runHandlers beh msg rest
    { invoked := (h, msg.data, msg) :: tail.invoked
      errorsLogged := (if beh h msg.data then 1 else 0) + tail.errorsLogged }

/-- `BaseChannel.handleMessage(rawMessage)`: the whole body runs in a `try`.
The `none` input models a `rawMessage` on which `JSON.parse` throws: the error
is caught and logged, and no dispatch happens. On a parsed frame the message is
built with `timestamp: parsed.timestamp || Date.now()`, the handler set for
`message.id` is looked up (absent set: the message is dropped), and each
handler runs under per-handler catch. The channel state is returned alongside
the dispatch record: the method touches neither the registry nor
`isConnected`. -/
def handleMessage (beh : Nat → α → Bool) (st : ChannelState)
    (raw : Option (Raw α)) (now : Int) : ChannelState × DispatchLog α :=
  match raw with
  | none => (st, { invoked := [], errorsLogged := 1 })
  | some r =>
    let msg := receivedMessage r now
    match mapGet st.messageHandlers msg.id with
    | none => (st, { invoked := [], errorsLogged := 0 })
    | some hs => (st, runHandlers beh msg hs)

/-! ## Send path (base-channel `sendMessage`/`validateAndSerialize`,
browser-channel `send`) -/

/-- `BaseChannel.validateAndSerialize(id, data)`: build the envelope
`{ id, data, timestamp: Date.now() }` (then `JSON.stringify` it; the model
keeps the structure, `rawOfMessage` being its parsed form). -/
def validateAndSerialize (id : String) (data : α) (now : Int) : Message α :=
  { id := id, data := data, timestamp := now }

/-- A channel together with its transport observation log: the frames actually
written to the socket and a spy counter of calls to the low-level `send`. -/
structure SendState (α : Type) where
  st : ChannelState
  sentFrames : List (Message α)
  sendCalls : Nat
deriving Repr, DecidableEq

/-- `BrowserChannel.send(id, data)`: throw `'WebSocket is not connected'`
unless the socket is open, else serialize and write the frame. Every call
increments the spy counter `sendCalls`. -/
def send (s : SendState α) (id : String) (data : α) (now : Int) :
    Except String Unit × SendState α :=
  let s1 := { s with sendCalls := s.sendCalls + 1 }
  if s1.st.isConnected then
    (Except.ok (),
      { s1 with sentFrames := s1.sentFrames ++ [validateAndSerialize id data now] })
  else
    (Except.error "WebSocket is not connected", s1)

/-- `BaseChannel.sendMessage(definition, data)`:
`const validatedData = definition.schema.parse(data); return this.send(definition.id, validatedData)`.
A validation error propagates to the caller before `send` is reached. -/
def sendMessage (s : SendState α) (d : MessageDefinition α) (data : α)
    (now : Int) : Except String Unit × SendState α :=
  match d.schema data with
  | Except.error e => (Except.error e, s)
  | Except.ok v => send s d.id v now

/-! ## PeerChannel (peer-channel) -/

/-- The mutable fields of a `PeerChannel` instance touched by its lifecycle
methods: the inherited registry and flag, the remote peer id, whether the
`RTCPeerConnection` and the data channel exist, and the length of the pending
ICE-candidate queue. -/
structure PeerState where
  messageHandlers : List (String × List Nat)
  isConnected : Bool
  remotePeerId : Option String
  hasPeerConnection : Bool
  hasDataChannel : Bool
  pendingIceCandidates : Nat
deriving Repr, DecidableEq

/-- `PeerChannel.connect()`: the body is a single
`throw new Error('Use createOffer() or handleOffer() to establish peer connection')`
inside an `async` method, i.e. an unconditionally rejected promise; no field is
read or written. (The base-class signature passes a url; JavaScript ignores the
extra argument.) -/
def peerConnect (s : PeerState) (_url : String) :
    Except String Unit × PeerState :=
  (Except.error "Use createOffer() or handleOffer() to establish peer connection", s)

/-! ## Connection lifecycle traces -/

/-- A transport lifecycle event delivered to the channel's handlers: the
socket opened, or it closed (the close handler holds the `connect` url in its
closure). -/
inductive ConnEvent where
  | openEvt
  | closeEvt (url : String)
deriving Repr, DecidableEq

/-- Dispatch one transport event to the installed handler. -/
def applyEvent (s : BrowserState) : ConnEvent → BrowserState
  | .openEvt => onopen s
  | .closeEvt url => onclose url s

/-- Run a sequence of transport events from a state. -/
def runEvents (s : BrowserState) : List ConnEvent → BrowserState
  | [] => s
  | e :: es => runEvents (applyEvent s e) es

/-- Specification-side view of the connected flag: after a sequence of
lifecycle events it is `true` exactly when the last event was a successful
open (`false` before any event when starting disconnected). -/
def openAfter (b : Bool) (es : List ConnEvent) : Bool :=
  es.foldl (fun _ e => match e with | .openEvt => true | .closeEvt _ => false) b

/-! ## Registry lemmas (JS `Map`/`Set` model) -/

theorem mapGet_mapSet_same (r : List (String × List Nat)) (id : String)
    (hs : List Nat) : mapGet (mapSet r id hs) id = some hs := by
  induction r with
  | nil => simp [mapGet, mapSet]
  | cons p rest ih =>
    obtain ⟨k, v⟩ := p
    by_cases hk : k = id <;> simp [mapGet, mapSet, hk, ih]

theorem mapGet_mapSet_other (r : List (String × List Nat)) (id id' : String)
    (hs : List Nat) (hne : id' ≠ id) :
    mapGet (mapSet r id hs) id' = mapGet r id' := by
  induction r with
  | nil => simp [mapGet, mapSet, Ne.symm hne]
  | cons p rest ih =>
    obtain ⟨k, v⟩ := p
    by_cases hk : k = id
    · subst hk
      simp [mapGet, mapSet, Ne.symm hne]
    · simp [mapGet, mapSet, hk, ih]

theorem mapSet_self (r : List (String × List Nat)) (id : String) (hs : List Nat)
    (h : mapGet r id = some hs) : mapSet r id hs = r := by
  induction r with
  | nil => simp [mapGet] at h
  | cons p rest ih =>
    obtain ⟨k, v⟩ := p
    by_cases hk : k = id
    · subst hk
      simp [mapGet] at h
      simp [mapSet, h]
    · simp [mapGet, hk] at h
      simp [mapSet, hk, ih h]

theorem mapSet_mapSet (r : List (String × List Nat)) (id : String)
    (a b : List Nat) : mapSet (mapSet r id a) id b = mapSet r id b := by
  induction r with
  | nil => simp [mapSet]
  | cons p rest ih =>
    obtain ⟨k, v⟩ := p
    by_cases hk : k = id <;> simp [mapSet, hk, ih]

theorem mem_setAdd_self (hs : List Nat) (h : Nat) : h ∈ setAdd hs h := by
  by_cases hm : h ∈ hs <;> simp [setAdd, hm]

theorem setAdd_idem (hs : List Nat) (h : Nat) :
    setAdd (setAdd hs h) h = setAdd hs h := by
  rw [setAdd, if_pos (mem_setAdd_self hs h)]

/-- Normal form of `onHandler`: the bucket for the key becomes
`setAdd bucket h`, everything else is untouched. -/
theorem onHandler_eq (st : ChannelState) (k : HandlerKey α) (h : Nat) :
    onHandler st k h =
      { st with messageHandlers :=
          mapSet st.messageHandlers (keyId k) (setAdd (bucket st (keyId k)) h) } := by
  unfold onHandler bucket
  cases hg : mapGet st.messageHandlers (keyId k) with
  | none => simp [hg, mapGet_mapSet_same, mapSet_mapSet]
  | some hs => simp [hg]

theorem bucket_onHandler_same (st : ChannelState) (k : HandlerKey α) (h : Nat) :
    bucket (onHandler st k h) (keyId k) = setAdd (bucket st (keyId k)) h := by
  rw [onHandler_eq]
  unfold bucket
  simp [mapGet_mapSet_same]

theorem bucket_onHandler_other (st : ChannelState) (k : HandlerKey α) (h : Nat)
    (id : String) (hne : id ≠ keyId k) :
    bucket (onHandler st k h) id = bucket st id := by
  rw [onHandler_eq]
  unfold bucket
  simp [mapGet_mapSet_other _ _ _ _ hne]

theorem onHandler_idem (st : ChannelState) (k : HandlerKey α) (h : Nat) :
    onHandler (onHandler st k h) k h = onHandler st k h := by
  rw [onHandler_eq (onHandler st k h) k h, bucket_onHandler_same, setAdd_idem,
    onHandler_eq st k h]
  simp [mapSet_mapSet]

theorem bucket_offHandler_same (st : ChannelState) (k : HandlerKey α) (h : Nat) :
    bucket (offHandler st k h) (keyId k) = (bucket st (keyId k)).erase h := by
  unfold offHandler bucket
  cases hg : mapGet st.messageHandlers (keyId k) with
  | none => simp [hg]
  | some hs => simp [hg, mapGet_mapSet_same, setDelete]

theorem bucket_offHandler_other (st : ChannelState) (k : HandlerKey α) (h : Nat)
    (id : String) (hne : id ≠ keyId k) :
    bucket (offHandler st k h) id = bucket st id := by
  unfold offHandler bucket
  cases hg : mapGet st.messageHandlers (keyId k) with
  | none => simp [hg]
  | some hs => simp [hg, mapGet_mapSet_other _ _ _ _ hne]

theorem offHandler_absent (st : ChannelState) (k : HandlerKey α) (h : Nat)
    (habs : h ∉ bucket st (keyId k)) : offHandler st k h = st := by
  unfold offHandler
  cases hg : mapGet st.messageHandlers (keyId k) with
  | none => simp [hg]
  | some hs =>
    have hmem : h ∉ hs := by
      intro hmem
      exact habs (by simp [bucket, hg, hmem])
    simp only [hg, setDelete]
    rw [List.erase_of_not_mem hmem, mapSet_self _ _ _ hg]

theorem runHandlers_invoked (beh : Nat → α → Bool) (msg : Message α)
    (hs : List Nat) :
    (runHandlers beh msg hs).invoked = hs.map (fun t => (t, msg.data, msg)) := by
  induction hs with
  | nil => rfl
  | cons h rest ih => simp [runHandlers, ih]

theorem runHandlers_errors (beh : Nat → α → Bool) (msg : Message α)
    (hs : List Nat) :
    (runHandlers beh msg hs).errorsLogged
      = (hs.filter (fun t => beh t msg.data)).length := by
  induction hs with
  | nil => rfl
  | cons h rest ih =>
    by_cases hb : beh h msg.data <;> simp [runHandlers, hb, ih, Nat.add_comm]

theorem handleMessage_state (beh : Nat → α → Bool) (st : ChannelState)
    (raw : Option (Raw α)) (now : Int) :
    (handleMessage beh st raw now).1 = st := by
  unfold handleMessage
  cases raw with
  | none => rfl
  | some r => cases hg : mapGet st.messageHandlers (receivedMessage r now).id <;> simp [hg]

theorem handleMessage_invoked (beh : Nat → α → Bool) (st : ChannelState)
    (r : Raw α) (now : Int) :
    (handleMessage beh st (some r) now).2.invoked
      = (bucket st r.id).map (fun t => (t, r.data, receivedMessage r now)) := by
  cases hg : mapGet st.messageHandlers r.id with
  | none => simp [handleMessage, receivedMessage, bucket, hg]
  | some hs => simp [handleMessage, receivedMessage, bucket, hg, runHandlers_invoked]

theorem handleMessage_errors (beh : Nat → α → Bool) (st : ChannelState)
    (r : Raw α) (now : Int) :
    (handleMessage beh st (some r) now).2.errorsLogged
      = ((bucket st r.id).filter (fun t => beh t r.data)).length := by
  cases hg : mapGet st.messageHandlers r.id with
  | none => simp [handleMessage, receivedMessage, bucket, hg]
  | some hs => simp [handleMessage, receivedMessage, bucket, hg, runHandlers_errors]

theorem handleMessage_invoked_tags (beh : Nat → α → Bool) (st : ChannelState)
    (r : Raw α) (now : Int) :
    (handleMessage beh st (some r) now).2.invoked.map (fun e => e.1)
      = bucket st r.id := by
  rw [handleMessage_invoked, List.map_map]
  exact List.map_id'' (fun _ => rfl) _

theorem isOpen_onclose (url : String) (s : BrowserState) :
    isOpen (onclose url s) = false := by
  unfold isOpen onclose
  by_cases h : s.reconnectAttempts < s.maxReconnectAttempts <;> simp [h]

theorem isOpen_runEvents (es : List ConnEvent) : ∀ s : BrowserState,
    isOpen (runEvents s es) = openAfter (isOpen s) es := by
  induction es with
  | nil => intro s; rfl
  | cons e tail ih =>
    intro s
    cases e with
    | openEvt =>
      show isOpen (runEvents (onopen s) tail) = openAfter (isOpen s) (ConnEvent.openEvt :: tail)
      rw [ih (onopen s)]
      rfl
    | closeEvt url =>
      show isOpen (runEvents (onclose url s) tail)
          = openAfter (isOpen s) (ConnEvent.closeEvt url :: tail)
      rw [ih (onclose url s)]
      have h1 : isOpen (onclose url s) = false := isOpen_onclose url s
      show openAfter (isOpen (onclose url s)) tail = _
      rw [h1]
      rfl

/-! ## Claim theorems -/

/-- C1 (code bug evidence): the specification states that an explicit
`disconnect()` suppresses the automatic-reconnect path for that closure.
The code contradicts it: `disconnect()` only calls `ws.close()`, the resulting
close event runs the same `onclose` handler installed by `connect`, and no
flag marks the closure as explicit — so a freshly opened channel with the
default policy (`reconnectAttempts = 0 < 5 = maxReconnectAttempts`) that is
explicitly disconnected still gets an automatic reconnect task scheduled
(delay `1000 * 2 ^ 0` ms, original url). -/
theorem C1_explicit_disconnect_still_schedules_reconnect :
    (disconnect "ws:/s" (onopen BrowserState.init)).scheduled = [(1000, "ws:/s")]
    ∧ (disconnect "ws:/s" (onopen BrowserState.init)).scheduled ≠ [] := by
  constructor
  · rfl
  · intro hcontra
    simp [disconnect, onclose, onopen, BrowserState.init] at hcontra

/-- C2: on an unexpected close with `attemptCount < maxAttempts` a reconnect
task is scheduled after exactly `baseDelayMillis * 2^attemptCount` ms carrying
the original url, and running it increments the counter; with
`attemptCount ≥ maxAttempts` the close only clears the connected flag and
schedules nothing; a successful open resets the counter to 0; and with
`setReconnectOptions(3, 100)` from a fresh channel, repeatedly failing
reconnects yield exactly the delays 100 ms, 200 ms, 400 ms and then stop. -/
theorem C2_reconnect_backoff (s : BrowserState) (url : String) :
    (s.reconnectAttempts < s.maxReconnectAttempts →
      (onclose url s).scheduled
          = s.scheduled ++ [(s.reconnectDelay * 2 ^ s.reconnectAttempts, url)]
        ∧ (reconnectTick (onclose url s)).reconnectAttempts
          = s.reconnectAttempts + 1)
    ∧ (s.maxReconnectAttempts ≤ s.reconnectAttempts →
        onclose url s = { s with isConnected := false })
    ∧ (onopen s).reconnectAttempts = 0
    ∧ failureDelays 10 (setReconnectOptions 3 100 BrowserState.init) url
        = [100, 200, 400] := by
  refine ⟨fun h => ⟨?_, ?_⟩, fun h => ?_, rfl, ?_⟩
  · simp [onclose, h]
  · simp [onclose, reconnectTick, h]
  · simp [onclose, Nat.not_lt.mpr h]
  · rfl

/-- C2 witness: at `reconnectAttempts = 2`, `maxReconnectAttempts = 5`,
`reconnectDelay = 100`, the close schedules a 400 ms reconnect to the url. -/
theorem C2_reconnect_backoff_witness :
    (onclose "ws:/w"
        { isConnected := true, reconnectAttempts := 2, maxReconnectAttempts := 5,
          reconnectDelay := 100, scheduled := [] }).scheduled
      = [(400, "ws:/w")] := by
  have h := (C2_reconnect_backoff
    { isConnected := true, reconnectAttempts := 2, maxReconnectAttempts := 5,
      reconnectDelay := 100, scheduled := [] } "ws:/w").1 (by decide)
  rw [h.1]
  decide

/-- C8: `isOpen` is the pure read of `isConnected`; it is `false` on the
freshly constructed channel, `true` right after the transport's open event,
`false` right after any close (the close produced by `disconnect()`
included), and over any lifecycle trace from construction it is `true`
exactly when the most recent event was a successful open. -/
theorem C8_isOpen_connection_state (s : BrowserState) (url : String) :
    isOpen BrowserState.init = false
    ∧ isOpen (onopen s) = true
    ∧ isOpen (onclose url s) = false
    ∧ isOpen (disconnect url s) = false
    ∧ isOpen s = s.isConnected
    ∧ (∀ es : List ConnEvent,
        isOpen (runEvents BrowserState.init es) = openAfter false es) := by
  refine ⟨rfl, rfl, isOpen_onclose url s, isOpen_onclose url s, rfl, ?_⟩
  intro es
  exact isOpen_runEvents es BrowserState.init

/-- C9: when an initial `connect(url)` fails (error event, then close event),
the caller's promise is rejected, yet the close handler still enters the
automatic-retry path: while `attemptCount < maxAttempts` a background
reconnect to the same url is scheduled. -/
theorem C9_failed_initial_connect_still_retries (s : BrowserState)
    (url : String) (h : s.reconnectAttempts < s.maxReconnectAttempts) :
    (failedInitialConnect url s).1 = PromiseState.rejected
    ∧ (failedInitialConnect url s).2.scheduled
        = s.scheduled ++ [(s.reconnectDelay * 2 ^ s.reconnectAttempts, url)] := by
  refine ⟨rfl, ?_⟩
  show (onclose url s).scheduled = _
  simp [onclose, h]

/-- C9 witness: a failed first connect on a fresh channel rejects the caller
and schedules a 1000 ms reconnect to the same url. -/
theorem C9_witness :
    (failedInitialConnect "ws:/w" BrowserState.init).1 = PromiseState.rejected
    ∧ (failedInitialConnect "ws:/w" BrowserState.init).2.scheduled
        = [] ++ [(1000 * 2 ^ 0, "ws:/w")] :=
  C9_failed_initial_connect_still_retries BrowserState.init "ws:/w" (by decide)

/-- C10: `PeerChannel.connect` rejects unconditionally, for every state and
every argument, with exactly the error
`'Use createOffer() or handleOffer() to establish peer connection'`, and
leaves the registry, the connection flag and the peer-connection fields
untouched. -/
theorem C10_peer_connect_always_rejects (s : PeerState) (url : String) :
    peerConnect s url
      = (Except.error
          "Use createOffer() or handleOffer() to establish peer connection", s) :=
  rfl

/-- C3: when the definition's schema rejects the data, `sendMessage` fails
with exactly the validation error raised by the schema, the channel state is
unchanged, no frame is written to the transport, and the low-level `send` spy
counter shows that `send` was never invoked. -/
theorem C3_sendMessage_validation_failure (s : SendState α)
    (d : MessageDefinition α) (data : α) (now : Int) (e : String)
    (he : d.schema data = Except.error e) :
    sendMessage s d data now = (Except.error e, s)
    ∧ (sendMessage s d data now).2.sentFrames = s.sentFrames
    ∧ (sendMessage s d data now).2.sendCalls = s.sendCalls := by
  have h1 : sendMessage s d data now = (Except.error e, s) := by
    unfold sendMessage
    rw [he]
  exact ⟨h1, by rw [h1], by rw [h1]⟩

/-- A concrete message definition for the witnesses: id `"num"`, schema
accepting exactly the even integers. -/
def evenDef : MessageDefinition Int :=
  { id := "num"
    schema := fun n => if n % 2 = 0 then Except.ok n else Except.error "odd" }

/-- A concrete connected channel with one handler (reference tag 7)
registered for `"num"`. -/
def chanState0 : ChannelState :=
  { messageHandlers := [("num", [7])], isConnected := true }

/-- The concrete channel with empty transport logs. -/
def sendState0 : SendState Int :=
  { st := chanState0, sentFrames := [], sendCalls := 0 }

/-- Handler behaviour environment in which no handler throws. -/
def beh0 : Nat → Int → Bool := fun _ _ => false

/-- C3 witness: sending the odd payload 3 under `evenDef`. -/
theorem C3_witness :
    sendMessage sendState0 evenDef 3 10 = (Except.error "odd", sendState0)
    ∧ (sendMessage sendState0 evenDef 3 10).2.sentFrames = sendState0.sentFrames
    ∧ (sendMessage sendState0 evenDef 3 10).2.sendCalls = sendState0.sendCalls :=
  C3_sendMessage_validation_failure sendState0 evenDef 3 10 "odd" rfl

/-- C4: `handleMessage` never propagates an error. A frame on which
`JSON.parse` throws is swallowed (one error logged, no handler invoked, state
untouched). On a parsed frame the state (registry and connected flag) is
likewise untouched, every handler registered for the frame's id is invoked
exactly in registration order with the frame's payload — independently of
which handlers throw — and every handler failure is caught and logged rather
than propagated (the number of logged errors equals the number of throwing
handlers). -/
theorem C4_handleMessage_fault_isolation (beh : Nat → α → Bool)
    (st : ChannelState) (r : Raw α) (now : Int) :
    (handleMessage beh st none now).1 = st
    ∧ (handleMessage beh st none now).2.invoked = []
    ∧ (handleMessage beh st none now).2.errorsLogged = 1
    ∧ (handleMessage beh st (some r) now).1 = st
    ∧ (handleMessage beh st (some r) now).2.invoked
        = (bucket st r.id).map (fun t => (t, r.data, receivedMessage r now))
    ∧ (handleMessage beh st (some r) now).2.errorsLogged
        = ((bucket st r.id).filter (fun t => beh t r.data)).length :=
  ⟨rfl, rfl, rfl, handleMessage_state beh st (some r) now,
    handleMessage_invoked beh st r now, handleMessage_errors beh st r now⟩

/-- C5: round-trip for valid data. If the schema validates `data` to `v` and
the transport is open, `sendMessage` succeeds and the serialized envelope's
`data` field is exactly `v`; feeding that envelope (through the JSON codec)
back into `handleMessage` invokes every handler registered for the
definition's id with payload exactly `v`. -/
theorem C5_send_receive_roundtrip (d : MessageDefinition α) (data v : α)
    (s : SendState α) (beh : Nat → α → Bool) (st : ChannelState)
    (now now2 : Int) (hv : d.schema data = Except.ok v)
    (hconn : s.st.isConnected = true) :
    (sendMessage s d data now).1 = Except.ok ()
    ∧ (sendMessage s d data now).2.sentFrames
        = s.sentFrames ++ [validateAndSerialize d.id v now]
    ∧ (validateAndSerialize d.id v now).data = v
    ∧ (handleMessage beh st
          (some (rawOfMessage (validateAndSerialize d.id v now))) now2).2.invoked
        = (bucket st d.id).map
            (fun t => (t, v,
              receivedMessage (rawOfMessage (validateAndSerialize d.id v now)) now2)) := by
  refine ⟨?_, ?_, rfl, ?_⟩
  · unfold sendMessage
    rw [hv]
    simp [send, hconn]
  · unfold sendMessage
    rw [hv]
    simp [send, hconn]
  · exact handleMessage_invoked beh st (rawOfMessage (validateAndSerialize d.id v now)) now2

/-- C5 witness: the even payload 4 under `evenDef` on the connected concrete
channel, sent at time 10 and received back at time 20. -/
theorem C5_witness :
    (sendMessage sendState0 evenDef 4 10).1 = Except.ok ()
    ∧ (sendMessage sendState0 evenDef 4 10).2.sentFrames
        = sendState0.sentFrames ++ [validateAndSerialize evenDef.id 4 10]
    ∧ (validateAndSerialize evenDef.id (4 : Int) 10).data = 4
    ∧ (handleMessage beh0 chanState0
          (some (rawOfMessage (validateAndSerialize evenDef.id 4 10))) 20).2.invoked
        = (bucket chanState0 evenDef.id).map
            (fun t => (t, (4 : Int),
              receivedMessage (rawOfMessage (validateAndSerialize evenDef.id 4 10)) 20)) :=
  C5_send_receive_roundtrip evenDef 4 4 sendState0 beh0 chanState0 10 20 rfl rfl

/-- C6 counterexample: the claim says the receive path passes a present
timestamp to handlers unchanged. But `handleMessage` computes
`parsed.timestamp || Date.now()`, and `0` is falsy in JavaScript: a frame that
carries the present timestamp `0`, dispatched at current time 5, reaches the
handler with timestamp 5, not 0. -/
theorem C6_counterexample :
    (Raw.mk "num" (2 : Int) (some 0)).timestamp = some 0
    ∧ (handleMessage beh0 chanState0 (some (Raw.mk "num" (2 : Int) (some 0))) 5).2.invoked
        = [(7, 2, Message.mk "num" 2 5)]
    ∧ (5 : Int) ≠ 0 := by
  refine ⟨rfl, ?_, by decide⟩
  decide

/-- C6 amended: on the send path the envelope's timestamp is always the
current time at serialization; on the receive path the current time is
substituted exactly when the parsed timestamp is absent **or `0`** (JavaScript
`||` treats the number `0` as falsy), and any present nonzero timestamp is
passed to handlers unchanged; the message handed to every handler is the one
so constructed. -/
theorem C6_timestamp_handling_amended (st : ChannelState)
    (beh : Nat → α → Bool) (id : String) (data : α) (r : Raw α)
    (now now2 t : Int) :
    (validateAndSerialize id data now).timestamp = now
    ∧ (r.timestamp = none →
        receivedMessage r now2 = { id := r.id, data := r.data, timestamp := now2 })
    ∧ (r.timestamp = some 0 →
        receivedMessage r now2 = { id := r.id, data := r.data, timestamp := now2 })
    ∧ (r.timestamp = some t → t ≠ 0 →
        receivedMessage r now2 = { id := r.id, data := r.data, timestamp := t })
    ∧ (handleMessage beh st (some r) now2).2.invoked
        = (bucket st r.id).map (fun g => (g, r.data, receivedMessage r now2)) := by
  refine ⟨rfl, fun h0 => ?_, fun h0 => ?_, fun h0 ht => ?_,
    handleMessage_invoked beh st r now2⟩
  · simp [receivedMessage, jsOr, h0]
  · simp [receivedMessage, jsOr, h0]
  · simp [receivedMessage, jsOr, h0, ht]

/-- C6 witness: a frame with present nonzero timestamp 7 is dispatched with
timestamp 7 even at current time 5, and serialization at time 9 stamps 9. -/
theorem C6_witness :
    receivedMessage (Raw.mk "num" (2 : Int) (some 7)) 5
        = { id := "num", data := 2, timestamp := 7 }
    ∧ (validateAndSerialize "num" (2 : Int) 9).timestamp = 9 :=
  ⟨(C6_timestamp_handling_amended chanState0 beh0 "num" (2 : Int)
      (Raw.mk "num" (2 : Int) (some 7)) 9 5 7).2.2.2.1 rfl (by decide),
    (C6_timestamp_handling_amended chanState0 beh0 "num" (2 : Int)
      (Raw.mk "num" (2 : Int) (some 7)) 9 5 7).1⟩

/-- C7: the registry has set semantics keyed by message id. Registering the
same handler reference twice is idempotent, and a message for that id then
invokes the handler exactly once; `off` removes exactly that reference (a
message for the id no longer invokes it), leaves every other id's bucket and
every other handler of the same bucket registered, and is a no-op when the
handler is not present. -/
theorem C7_registry_set_semantics (st : ChannelState) (k : HandlerKey α)
    (h : Nat) (beh : Nat → α → Bool) :
    onHandler (onHandler st k h) k h = onHandler st k h
    ∧ (∀ r : Raw α, ∀ now : Int, r.id = keyId k →
        (bucket st (keyId k)).count h = 0 →
        ((handleMessage beh (onHandler (onHandler st k h) k h) (some r) now).2.invoked.map
            (fun e => e.1)).count h = 1)
    ∧ bucket (offHandler st k h) (keyId k) = (bucket st (keyId k)).erase h
    ∧ (∀ id, id ≠ keyId k → bucket (offHandler st k h) id = bucket st id)
    ∧ (∀ r : Raw α, ∀ now : Int, r.id = keyId k →
        (bucket st (keyId k)).count h ≤ 1 →
        h ∉ (handleMessage beh (offHandler st k h) (some r) now).2.invoked.map
            (fun e => e.1))
    ∧ (h ∉ bucket st (keyId k) → offHandler st k h = st) := by
  refine ⟨onHandler_idem st k h, ?_, bucket_offHandler_same st k h,
    fun id hne => bucket_offHandler_other st k h id hne, ?_,
    offHandler_absent st k h⟩
  · intro r now hrid hcnt
    have hnotmem : h ∉ bucket st (keyId k) := by
      rw [← List.count_pos_iff]
      omega
    rw [handleMessage_invoked_tags, hrid, onHandler_idem, bucket_onHandler_same,
      setAdd, if_neg hnotmem, List.count_append]
    simp [List.count_eq_zero.mpr hnotmem]
  · intro r now hrid hcnt
    rw [handleMessage_invoked_tags, hrid, bucket_offHandler_same]
    intro hmem
    have hmem' := List.count_pos_iff.mpr hmem
    rw [List.count_erase_self] at hmem'
    omega

/-- The concrete key used by the C7 witness: the raw string id `"other"`. -/
def key0 : HandlerKey Int := HandlerKey.byId "other"

/-- C7 witness: registering handler 9 twice for the fresh id `"other"` on the
concrete channel is idempotent, and one message for `"other"` invokes
handler 9 exactly once. -/
theorem C7_witness :
    onHandler (onHandler chanState0 key0 9) key0 9 = onHandler chanState0 key0 9
    ∧ ((handleMessage beh0 (onHandler (onHandler chanState0 key0 9) key0 9)
          (some (Raw.mk "other" (1 : Int) none)) 0).2.invoked.map
        (fun e => e.1)).count 9 = 1 :=
  ⟨(C7_registry_set_semantics chanState0 key0 9 beh0).1,
    (C7_registry_set_semantics chanState0 key0 9 beh0).2.1
      (Raw.mk "other" (1 : Int) none) 0 rfl (by decide)⟩

end Zodiac
